import Mathlib

/-!
Verification of the building-segmentation frontend workflow controller
(`App.tsx`), the API client (`services/api.ts`), the upload validator
(`components/ImageUpload.tsx`) and the color palette component, as a
shallow embedding in Lean 4.
-/

/-- A browser `File`: name, MIME type and byte size. -/
structure FileRec where
  name : String
  type : String
  size : Nat
  deriving DecidableEq, Repr

/-- `Mask` from `services/api.ts` / `types`: id, outline coordinates, optional color. -/
structure Mask where
  id : Nat
  coordinates : List (Int × Int)
  color : Option String
  deriving DecidableEq, Repr

/-- The workflow step of `AppState.currentStep` in `App.tsx`. -/
inductive Step where
  | upload
  | select
  | color
  | download
  deriving DecidableEq, Repr

/-- Position of a step in the fixed order upload < select < color < download. -/
def Step.idx : Step → Nat
  | .upload => 0
  | .select => 1
  | .color => 2
  | .download => 3

/-- The `AppState` aggregate of `App.tsx`.  `appliedColors` (a JS `Map`) is
modelled as an association list with unique keys, insertion ordered. -/
structure AppState where
  uploadedImage : Option FileRec
  imagePreview : Option String
  masks : List Mask
  selectedMasks : List Nat
  appliedColors : List (Nat × String)
  isProcessing : Bool
  progress : Nat
  error : Option String
  currentStep : Step
  deriving DecidableEq, Repr

/-- The initial state built in `useState` in `App.tsx`. -/
def initialState : AppState :=
  { uploadedImage := none
    imagePreview := none
    masks := []
    selectedMasks := []
    appliedColors := []
    isProcessing := false
    progress := 0
    error := none
    currentStep := Step.upload }

/-- `Map.get`: value of the first (unique) occurrence of the key. -/
def mapGet : List (Nat × String) → Nat → Option String
  | [], _ => none
  | (k, v) :: rest, i => if i = k then some v else mapGet rest i

/-- `Map.set`: overwrite the existing entry in place, else append. -/
def mapSet : List (Nat × String) → Nat → String → List (Nat × String)
  | [], k, v => [(k, v)]
  | (k', v') :: rest, k, v =>
      if k' = k then (k, v) :: rest else (k', v') :: mapSet rest k v

/-- JavaScript `m || d` for an optional string: `undefined` and `""` are falsy. -/
def jsOr : Option String → String → String
  | none, d => d
  | some s, d => if s = "" then d else s

/-- Outcome of a `fetch`: either a network error (rejected promise) or an
HTTP response with its `ok` flag, status and parsed JSON body. -/
inductive FetchResult (β : Type) where
  | networkError (msg : String)
  | response (ok : Bool) (status : Nat) (body : β)

/-- Response body of `POST /upload` (`UploadResponse`). -/
structure UploadResponse where
  success : Bool
  filename : Option String
  message : Option String
  deriving DecidableEq, Repr

/-- Response body of `POST /generate-masks` (`GenerateMasksResponse`). -/
structure GenerateMasksResponse where
  success : Bool
  masks : List Mask
  message : Option String
  deriving DecidableEq, Repr

/-- Response body of `POST /apply-color` (`ApplyColorResponse`). -/
structure ApplyColorResponse where
  success : Bool
  message : Option String
  deriving DecidableEq, Repr

/-- `ApiService.makeRequest` in `services/api.ts`: throws on a network error
or a non-ok status, otherwise returns the parsed body unchanged. -/
def makeRequest {β : Type} : FetchResult β → Except String β
  | FetchResult.networkError msg => Except.error msg
  | FetchResult.response ok status body =>
      if ok then Except.ok body
      else Except.error ("HTTP error! status: " ++ toString status)

/-- `ApiService.uploadImage`: throws on network error or non-ok status,
otherwise returns the body unchanged (the `success` flag is not inspected). -/
def uploadImage : FetchResult UploadResponse → Except String UploadResponse
  | FetchResult.networkError msg => Except.error msg
  | FetchResult.response ok status body =>
      if ok then Except.ok body
      else Except.error ("Upload failed: " ++ toString status)

/-- `ApiService.generateMasks`: throws on network error or non-ok status,
otherwise returns the body unchanged (the `success` flag is not inspected). -/
def generateMasks : FetchResult GenerateMasksResponse → Except String GenerateMasksResponse
  | FetchResult.networkError msg => Except.error msg
  | FetchResult.response ok status body =>
      if ok then Except.ok body
      else Except.error ("Mask generation failed: " ++ toString status)

/-- `ApiService.applyColor`: delegates to `makeRequest`. -/
def applyColor : FetchResult ApplyColorResponse → Except String ApplyColorResponse :=
  makeRequest

/-- `ApiService.downloadResult`: throws on network error or non-ok status,
otherwise returns the blob (modelled as an opaque string). -/
def downloadResult : FetchResult String → Except String String
  | FetchResult.networkError msg => Except.error msg
  | FetchResult.response ok status body =>
      if ok then Except.ok body
      else Except.error ("Download failed: " ++ toString status)

/-- `true` exactly when the fetch failed at the transport level
(network error or non-2xx status). -/
def transportFailed {β : Type} : FetchResult β → Bool
  | FetchResult.networkError _ => true
  | FetchResult.response ok _ _ => !ok

/-- An operation outcome counts as a failure when the API call threw (transport)
or the returned body carries the application-level flag `success:false`. -/
def opFailed {β : Type} (succ : β → Bool) : Except String β → Bool
  | Except.error _ => true
  | Except.ok r => !(succ r)

/-- First `setState` of `handleImageUpload` in `App.tsx`: stores the file and
preview, sets processing, resets progress and error, and advances the step
to `select` before the remote call is made. -/
def uploadStart (file : FileRec) (preview : String) (s : AppState) : AppState :=
  { s with
    uploadedImage := some file
    imagePreview := some preview
    isProcessing := true
    progress := 0
    error := none
    currentStep := Step.select }

/-- One step of the simulated progress loops in `App.tsx`: `progress := i`. -/
def progressSet (i : Nat) (s : AppState) : AppState :=
  { s with progress := i }

/-- `handleImageUpload` in `App.tsx`, with the fetch outcome passed explicitly.
The simulated progress loop ends with `progress ... 100` before the request. -/
def handleImageUpload (file : FileRec) (preview : String)
    (fetch : FetchResult UploadResponse) (s : AppState) : AppState :=
  let s2 := progressSet 100 (uploadStart file preview s)
  match uploadImage fetch with
  | Except.ok resp =>
      if resp.success then
        { s2 with isProcessing := false, progress := 100 }
      else
        { s2 with isProcessing := false, error := some (jsOr resp.message "Upload failed") }
  | Except.error msg =>
      { s2 with isProcessing := false, error := some msg }

/-- First `setState` of `handleCanvasClick` (after its guard passed):
sets processing, resets progress and clears the error. -/
def canvasClickStart (s : AppState) : AppState :=
  { s with isProcessing := true, progress := 0, error := none }

/-- Success/failure continuation of `handleCanvasClick`: on success appends one
mask with a fresh id (`Date.now()`, passed as `now`) whose coordinates come from
the first returned mask (or `[]` when `masks` is empty), sets `progress := 100`
and step `color`; on failure records the error message. -/
def canvasClickFinish (now : Nat) (result : Except String GenerateMasksResponse)
    (s : AppState) : AppState :=
  match result with
  | Except.ok resp =>
      if resp.success then
        let newMask : Mask :=
          { id := now
            coordinates := ((resp.masks.head?).map Mask.coordinates).getD []
            color := none }
        { s with
          masks := s.masks ++ [newMask]
          isProcessing := false
          progress := 100
          currentStep := Step.color }
      else
        { s with isProcessing := false, error := some (jsOr resp.message "Mask generation failed") }
  | Except.error msg =>
      { s with isProcessing := false, error := some msg }

/-- `handleCanvasClick` in `App.tsx`.  Returns the new state and whether a
remote segmentation call was made.  The guard rejects the click when no image
has been uploaded or a request is already in flight. -/
def handleCanvasClick (now : Nat) (fetch : FetchResult GenerateMasksResponse)
    (s : AppState) : AppState × Bool :=
  if s.uploadedImage.isNone || s.isProcessing then (s, false)
  else
    (canvasClickFinish now (generateMasks fetch) (progressSet 100 (canvasClickStart s)), true)

/-- Toast raised by `handleColorSelect` when no mask is selected. -/
def colorSelectNotice (s : AppState) : Option String :=
  if s.selectedMasks.length = 0 then some "No mask selected" else none

/-- `handleColorSelect` in `App.tsx`: with an empty selection only a toast is
raised; otherwise every selected mask id is written to `appliedColors` and the
step advances to `download`. -/
def handleColorSelect (color : String) (s : AppState) : AppState :=
  if s.selectedMasks.length = 0 then s
  else
    { s with
      appliedColors := s.selectedMasks.foldl (fun m maskId => mapSet m maskId color) s.appliedColors
      currentStep := Step.download }

/-- The selection update of `handleMaskSelect`: remove the id if present,
else append it. -/
def toggleList (l : List Nat) (maskId : Nat) : List Nat :=
  if l.contains maskId then l.filter (fun i => i != maskId) else l ++ [maskId]

/-- `handleMaskSelect` in `App.tsx`: toggles membership of `maskId` in
`selectedMasks`. -/
def handleMaskSelect (maskId : Nat) (s : AppState) : AppState :=
  { s with selectedMasks := toggleList s.selectedMasks maskId }

/-- `handleDownload` in `App.tsx`: raises toasts only, never mutates state.
Returns the (unchanged) state and the toast title. -/
def handleDownload (s : AppState) : AppState × String :=
  if s.appliedColors.length = 0 then (s, "No colors applied")
  else (s, "Download started")

/-- The MIME allow-list of `validateFile` in `ImageUpload.tsx`. -/
def validTypes : List String := ["image/jpeg", "image/jpg", "image/png", "image/webp"]

/-- The 10 MB size ceiling of `validateFile`. -/
def maxSize : Nat := 10 * 1024 * 1024

/-- `validateFile` in `ImageUpload.tsx`: type must be on the allow-list and
size must not exceed the ceiling. -/
def validateFile (f : FileRec) : Bool :=
  if !(validTypes.contains f.type) then false
  else if f.size > maxSize then false
  else true

/-- The toast title `validateFile` raises on rejection, if any. -/
def validateNotice (f : FileRec) : Option String :=
  if !(validTypes.contains f.type) then some "Invalid file type"
  else if f.size > maxSize then some "File too large"
  else none

/-- `handleFile` in `ImageUpload.tsx` composed with the controller: an invalid
file returns before `onImageUpload`, so the controller is never invoked and no
state changes.  The boolean records whether `onImageUpload` ran. -/
def handleFile (f : FileRec) (preview : String)
    (fetch : FetchResult UploadResponse) (s : AppState) : AppState × Bool :=
  if validateFile f then (handleImageUpload f preview fetch s, true)
  else (s, false)

/-- `handleColorSelect` in `ColorPalette.tsx`: move the color to the front,
keeping at most the first 7 previous entries. -/
def recentSelect (color : String) (prev : List String) : List String :=
  color :: (prev.filter (fun c => c != color)).take 7

/-- `removeRecentColor` in `ColorPalette.tsx`. -/
def recentRemove (colorToRemove : String) (prev : List String) : List String :=
  prev.filter (fun c => c != colorToRemove)

/-- A user action on the palette's recent-colors list. -/
inductive PaletteOp where
  | pick (color : String)
  | remove (color : String)

/-- Apply one palette action to the recent-colors list. -/
def applyPaletteOp (op : PaletteOp) (l : List String) : List String :=
  match op with
  | PaletteOp.pick c => recentSelect c l
  | PaletteOp.remove c => recentRemove c l

/-- Apply a sequence of palette actions, oldest first. -/
def applyPaletteOps (ops : List PaletteOp) (l : List String) : List String :=
  ops.foldl (fun acc op => applyPaletteOp op acc) l

/-- The invariant `selectedMasks contains no identifier absent from masks`. -/
def selInv (s : AppState) : Prop :=
  ∀ x ∈ s.selectedMasks, x ∈ s.masks.map Mask.id

/-- States reachable from the initial state through the controller operations,
where mask selection is only invoked with the id of an existing mask (the only
ids the canvas UI passes to `handleMaskSelect`). -/
inductive Reach : AppState → Prop where
  | init : Reach initialState
  | upload (f : FileRec) (p : String) (fetch : FetchResult UploadResponse) {s : AppState} :
      Reach s → Reach (handleImageUpload f p fetch s)
  | click (now : Nat) (fetch : FetchResult GenerateMasksResponse) {s : AppState} :
      Reach s → Reach (handleCanvasClick now fetch s).1
  | colorSel (c : String) {s : AppState} : Reach s → Reach (handleColorSelect c s)
  | maskSel (maskId : Nat) {s : AppState} :
      Reach s → maskId ∈ s.masks.map Mask.id → Reach (handleMaskSelect maskId s)
  | dl {s : AppState} : Reach s → Reach (handleDownload s).1

/-- A valid sample image file. -/
def sampleImage : FileRec := ⟨"b.jpg", "image/jpeg", 1000⟩

/-- A state with an image uploaded and no request in flight. -/
def uploadedState : AppState :=
  { initialState with uploadedImage := some sampleImage, imagePreview := some "p" }

/-- A successful `/upload` fetch outcome. -/
def okUpload : FetchResult UploadResponse :=
  FetchResult.response true 200 { success := true, filename := some "b.jpg", message := none }

/-- A successful `/generate-masks` fetch outcome with one mask. -/
def okMasks : FetchResult GenerateMasksResponse :=
  FetchResult.response true 200
    { success := true, masks := [{ id := 0, coordinates := [(1, 2)], color := none }], message := none }

/-- A transport-ok response body carrying the application-level failure flag. -/
def badBody : GenerateMasksResponse :=
  { success := false, masks := [], message := some "server failed" }

/-- State after a successful upload from the initial state. -/
def stateAfterUpload : AppState := handleImageUpload sampleImage "p" okUpload initialState

/-- State after a successful canvas click on `stateAfterUpload`. -/
def stateAfterClick : AppState := (handleCanvasClick 1 okMasks stateAfterUpload).1

/-- State after selecting the freshly created mask. -/
def stateAfterSelect : AppState := handleMaskSelect 1 stateAfterClick

/-- State after assigning a color to the selected mask (step `download`). -/
def stateAfterColor : AppState := handleColorSelect "#FF6B6B" stateAfterSelect

/-! ### Map and toggle lemmas -/

theorem mapGet_mapSet (m : List (Nat × String)) (k : Nat) (v : String) (i : Nat) :
    mapGet (mapSet m k v) i = if i = k then some v else mapGet m i := by
  induction m with
  | nil => simp [mapSet, mapGet]
  | cons kv rest ih =>
      obtain ⟨k', v'⟩ := kv
      by_cases hk : k' = k
      · subst hk
        by_cases hik : i = k' <;> simp [mapSet, mapGet, hik]
      · by_cases hik : i = k' <;> simp [mapSet, mapGet, hk, hik, ih]

theorem mapGet_foldl_mapSet (l : List Nat) (c : String) (m : List (Nat × String)) (i : Nat) :
    mapGet (l.foldl (fun acc k => mapSet acc k c) m) i =
      if i ∈ l then some c else mapGet m i := by
  induction l generalizing m with
  | nil => simp
  | cons k rest ih =>
      simp only [List.foldl_cons]
      rw [ih]
      by_cases hik : i ∈ rest
      · simp [hik]
      · by_cases hk : i = k
        · simp [hik, hk, mapGet_mapSet]
        · simp [hik, hk, mapGet_mapSet]

theorem mem_toggleList_toggleList (l : List Nat) (maskId x : Nat) :
    x ∈ toggleList (toggleList l maskId) maskId ↔ x ∈ l := by
  by_cases h : maskId ∈ l
  · have h1 : toggleList l maskId = l.filter (fun i => i != maskId) := by
      simp [toggleList, h]
    have h2 : ¬ maskId ∈ l.filter (fun i => i != maskId) := by simp
    have h3 : toggleList (l.filter (fun i => i != maskId)) maskId
        = l.filter (fun i => i != maskId) ++ [maskId] := by
      simp [toggleList, h2]
    rw [h1, h3]
    simp only [List.mem_append, List.mem_filter, List.mem_singleton]
    constructor
    · rintro (⟨hx, _⟩ | rfl)
      · exact hx
      · exact h
    · intro hx
      rcases eq_or_ne x maskId with rfl | hne
      · exact Or.inr rfl
      · exact Or.inl ⟨hx, by simpa using hne⟩
  · have h1 : toggleList l maskId = l ++ [maskId] := by
      simp [toggleList, h]
    have h2 : maskId ∈ l ++ [maskId] := by simp
    have h3 : toggleList (l ++ [maskId]) maskId
        = (l ++ [maskId]).filter (fun i => i != maskId) := by
      simp [toggleList, h2]
    rw [h1, h3]
    simp only [List.filter_append, List.mem_append, List.mem_filter]
    constructor
    · rintro (⟨hx, _⟩ | hx)
      · exact hx
      · simp at hx
    · intro hx
      refine Or.inl ⟨hx, ?_⟩
      simp only [bne_iff_ne, ne_eq]
      intro he
      exact h (he ▸ hx)

/-! ### C8 -/

/-- C8: for every application state and mask identifier, applying
`handleMaskSelect` twice in succession returns the set of selected mask
identifiers to its original value. -/
theorem toggleMaskSelection_involutive_on_set (s : AppState) (maskId x : Nat) :
    x ∈ (handleMaskSelect maskId (handleMaskSelect maskId s)).selectedMasks ↔
      x ∈ s.selectedMasks := by
  simpa [handleMaskSelect] using mem_toggleList_toggleList s.selectedMasks maskId x

/-! ### C5 -/

/-- C5: for every file whose MIME type is outside the allow-list or whose size
exceeds the 10 MB ceiling, validation fails with a user-visible notice, the
controller (`handleImageUpload`) is never invoked, and no state changes. -/
theorem invalid_file_rejected (f : FileRec) (preview : String)
    (fetch : FetchResult UploadResponse) (s : AppState)
    (h : ¬ f.type ∈ validTypes ∨ f.size > maxSize) :
    validateFile f = false ∧ (validateNotice f).isSome ∧
      handleFile f preview fetch s = (s, false) := by
  have hv : validateFile f = false := by
    rcases h with h | h
    · simp [validateFile, h]
    · by_cases ht : f.type ∈ validTypes <;> simp [validateFile, ht, h]
  have hn : (validateNotice f).isSome := by
    rcases h with h | h
    · simp [validateNotice, h]
    · by_cases ht : f.type ∈ validTypes <;> simp [validateNotice, ht, h]
  exact ⟨hv, hn, by simp [handleFile, hv]⟩

/-- Witness for C5 at a concrete non-image file. -/
theorem invalid_file_rejected_witness :
    validateFile ⟨"a.txt", "text/plain", 5⟩ = false ∧
      (validateNotice ⟨"a.txt", "text/plain", 5⟩).isSome ∧
      handleFile ⟨"a.txt", "text/plain", 5⟩ "preview" (FetchResult.networkError "err")
          initialState = (initialState, false) :=
  invalid_file_rejected _ _ _ _ (Or.inl (by decide))

/-! ### C4 -/

/-- C4: `handleColorSelect` with an empty selection raises a notice and leaves
the whole state (in particular `appliedColors`) unchanged; with a non-empty
selection it sets the color for every selected mask identifier, leaves every
other entry of `appliedColors` unchanged and advances the step to `download`. -/
theorem assignColor_spec (s : AppState) (c : String) :
    (s.selectedMasks = [] →
      handleColorSelect c s = s ∧ colorSelectNotice s = some "No mask selected")
    ∧ (s.selectedMasks ≠ [] →
        (∀ i ∈ s.selectedMasks, mapGet (handleColorSelect c s).appliedColors i = some c)
        ∧ (∀ i, ¬ i ∈ s.selectedMasks →
            mapGet (handleColorSelect c s).appliedColors i = mapGet s.appliedColors i)
        ∧ (handleColorSelect c s).currentStep = Step.download) := by
  constructor
  · intro h
    simp [handleColorSelect, colorSelectNotice, h]
  · intro h
    have hl : ¬ s.selectedMasks.length = 0 := by
      simpa [List.length_eq_zero] using h
    refine ⟨?_, ?_, ?_⟩
    · intro i hi
      simp [handleColorSelect, hl, mapGet_foldl_mapSet, hi]
    · intro i hi
      simp [handleColorSelect, hl, mapGet_foldl_mapSet, hi]
    · simp [handleColorSelect, hl]

/-- Witness for C4: selection `[1, 2]` receives the color, id 3 stays unmapped,
the step advances, and an empty selection changes nothing. -/
theorem assignColor_spec_witness :
    mapGet (handleColorSelect "#FF6B6B"
        { initialState with selectedMasks := [1, 2] }).appliedColors 1 = some "#FF6B6B"
    ∧ mapGet (handleColorSelect "#FF6B6B"
        { initialState with selectedMasks := [1, 2] }).appliedColors 2 = some "#FF6B6B"
    ∧ mapGet (handleColorSelect "#FF6B6B"
        { initialState with selectedMasks := [1, 2] }).appliedColors 3 = none
    ∧ (handleColorSelect "#FF6B6B"
        { initialState with selectedMasks := [1, 2] }).currentStep = Step.download
    ∧ handleColorSelect "#FF6B6B" initialState = initialState := by
  have h := assignColor_spec { initialState with selectedMasks := [1, 2] } "#FF6B6B"
  have h0 := assignColor_spec initialState "#FF6B6B"
  have h2 := h.2 (by decide)
  refine ⟨h2.1 1 (by decide), h2.1 2 (by decide), ?_, h2.2.2, (h0.1 rfl).1⟩
  have h3 := h2.2.1 3 (by decide)
  rw [h3]
  simp [initialState, mapGet]

/-! ### C9 -/

theorem applyPaletteOps_length_le (ops : List PaletteOp) (l : List String)
    (hl : l.length ≤ 8) : (applyPaletteOps ops l).length ≤ 8 := by
  induction ops generalizing l with
  | nil =>
      simp only [applyPaletteOps, List.foldl_nil]
      exact hl
  | cons op rest ih =>
      simp only [applyPaletteOps, List.foldl_cons] at ih ⊢
      apply ih
      cases op with
      | pick c =>
          simp [applyPaletteOp, recentSelect, List.length_take]
      | remove c =>
          exact le_trans (List.length_filter_le _ _) hl

/-- C9: after any sequence of palette selections and removals starting from the
empty list, the recent-colors list holds at most 8 entries; and a selection on
a full list of 8 entries not containing the color evicts exactly the oldest
(last) entry, placing the new color at the front. -/
theorem recent_colors_bounded (ops : List PaletteOp) (color : String) (prev : List String) :
    (applyPaletteOps ops []).length ≤ 8
    ∧ (prev.length = 8 → ¬ color ∈ prev →
        recentSelect color prev = color :: prev.take 7) := by
  refine ⟨applyPaletteOps_length_le ops [] (by simp), ?_⟩
  intro _ hmem
  have hfix : prev.filter (fun c' => c' != color) = prev := by
    rw [List.filter_eq_self]
    intro a ha
    simp only [bne_iff_ne, ne_eq]
    intro he
    exact hmem (he ▸ ha)
  simp [recentSelect, hfix]

/-- Witness for C9 at a concrete overflow of a full 8-entry list. -/
theorem recent_colors_bounded_witness :
    (applyPaletteOps [PaletteOp.pick "a", PaletteOp.pick "b", PaletteOp.remove "a"] []).length ≤ 8
    ∧ recentSelect "i" ["h", "g", "f", "e", "d", "c", "b", "a"]
        = "i" :: ["h", "g", "f", "e", "d", "c", "b", "a"].take 7 := by
  have h := recent_colors_bounded
      [PaletteOp.pick "a", PaletteOp.pick "b", PaletteOp.remove "a"]
      "i" ["h", "g", "f", "e", "d", "c", "b", "a"]
  exact ⟨h.1, h.2 (by decide) (by decide)⟩

/-! ### C3 -/

/-- C3: `handleCanvasClick` leaves the state unchanged and makes no remote call
when no image has been submitted or a request is in flight; and once the guard
has passed, every intermediate state of the in-flight request has
`isProcessing = true`, so a second click issued during the first changes
nothing and makes no remote call — the first call alone reaches the service. -/
theorem maskRequest_serialized (s : AppState) (now : Nat)
    (fetch : FetchResult GenerateMasksResponse) :
    (s.uploadedImage = none ∨ s.isProcessing = true →
      handleCanvasClick now fetch s = (s, false))
    ∧ (s.uploadedImage.isSome → s.isProcessing = false →
        (handleCanvasClick now fetch s).2 = true
        ∧ ∀ (i now' : Nat) (fetch' : FetchResult GenerateMasksResponse),
            handleCanvasClick now' fetch' (progressSet i (canvasClickStart s))
              = (progressSet i (canvasClickStart s), false)) := by
  constructor
  · rintro (h | h) <;> simp [handleCanvasClick, h]
  · intro h1 h2
    obtain ⟨f, hf⟩ := Option.isSome_iff_exists.mp h1
    constructor
    · simp [handleCanvasClick, hf, h2]
    · intro i now' fetch'
      simp [handleCanvasClick, progressSet, canvasClickStart]

/-- Witness for C3: a click with no uploaded image is a no-op; with an image, a
first click makes the remote call and a second click issued mid-flight is
rejected with the state unchanged. -/
theorem maskRequest_serialized_witness :
    handleCanvasClick 1 (FetchResult.networkError "err") initialState
        = (initialState, false)
    ∧ (handleCanvasClick 1 (FetchResult.networkError "err") uploadedState).2 = true
    ∧ handleCanvasClick 2 (FetchResult.networkError "err2")
          (progressSet 40 (canvasClickStart uploadedState))
        = (progressSet 40 (canvasClickStart uploadedState), false) := by
  have ha := maskRequest_serialized initialState 1 (FetchResult.networkError "err")
  have hb := maskRequest_serialized uploadedState 1 (FetchResult.networkError "err")
  have hb2 := hb.2 (by decide) (by decide)
  exact ⟨ha.1 (Or.inl rfl), hb2.1, hb2.2 40 2 (FetchResult.networkError "err2")⟩

/-! ### C10 -/

/-- C10: a transport-ok response with `success:true` and an empty masks array
still appends exactly one mask with an empty coordinate list, clears the
processing flag, sets progress to 100, advances the step to `color`, and
records no error. -/
theorem empty_masks_success_appends_mask (s : AppState) (now st : Nat) (m : Option String)
    (h1 : s.uploadedImage.isSome) (h2 : s.isProcessing = false) :
    (handleCanvasClick now
        (FetchResult.response true st { success := true, masks := [], message := m }) s).1.masks
      = s.masks ++ [{ id := now, coordinates := [], color := none }]
    ∧ (handleCanvasClick now
        (FetchResult.response true st { success := true, masks := [], message := m }) s).1.isProcessing
      = false
    ∧ (handleCanvasClick now
        (FetchResult.response true st { success := true, masks := [], message := m }) s).1.progress
      = 100
    ∧ (handleCanvasClick now
        (FetchResult.response true st { success := true, masks := [], message := m }) s).1.currentStep
      = Step.color
    ∧ (handleCanvasClick now
        (FetchResult.response true st { success := true, masks := [], message := m }) s).1.error
      = none := by
  obtain ⟨f, hf⟩ := Option.isSome_iff_exists.mp h1
  simp [handleCanvasClick, hf, h2, generateMasks, canvasClickFinish, canvasClickStart, progressSet]

/-- Witness for C10 at a concrete uploaded state. -/
theorem empty_masks_success_appends_mask_witness :
    (handleCanvasClick 3
        (FetchResult.response true 200 { success := true, masks := [], message := none })
        uploadedState).1.masks
      = uploadedState.masks ++ [{ id := 3, coordinates := [], color := none }]
    ∧ (handleCanvasClick 3
        (FetchResult.response true 200 { success := true, masks := [], message := none })
        uploadedState).1.currentStep = Step.color := by
  have h := empty_masks_success_appends_mask uploadedState 3 200 none (by decide) (by decide)
  exact ⟨h.1, h.2.2.2.1⟩

/-! ### C6 -/

/-- C6 counterexample: `generateMasks` returns a transport-ok response whose
body carries `success:false` to the caller as a non-error result; the API
Client does not inspect the application-level failure flag. -/
theorem api_returns_success_false_as_ok :
    generateMasks (FetchResult.response true 200 badBody) = Except.ok badBody
    ∧ badBody.success = false :=
  ⟨rfl, rfl⟩

/-- C6 amended: every API Client operation surfaces transport failures
(network error, non-2xx status) as a single error, and returns any transport-ok
body verbatim — so responses with `success:false` reach the caller as non-error
results; normalizing those is left to the Workflow Controller. -/
theorem api_error_surfacing_amended (fu : FetchResult UploadResponse)
    (fg : FetchResult GenerateMasksResponse) (fa : FetchResult ApplyColorResponse)
    (fd : FetchResult String) :
    ((∃ e, uploadImage fu = Except.error e) ↔ transportFailed fu = true)
    ∧ ((∃ e, generateMasks fg = Except.error e) ↔ transportFailed fg = true)
    ∧ ((∃ e, applyColor fa = Except.error e) ↔ transportFailed fa = true)
    ∧ ((∃ e, downloadResult fd = Except.error e) ↔ transportFailed fd = true)
    ∧ (∀ (st : Nat) (b : UploadResponse),
        uploadImage (FetchResult.response true st b) = Except.ok b)
    ∧ (∀ (st : Nat) (b : GenerateMasksResponse),
        generateMasks (FetchResult.response true st b) = Except.ok b) := by
  refine ⟨?_, ?_, ?_, ?_, fun st b => rfl, fun st b => rfl⟩
  · cases fu with
    | networkError m => simp [uploadImage, transportFailed]
    | response ok st b => cases ok <;> simp [uploadImage, transportFailed]
  · cases fg with
    | networkError m => simp [generateMasks, transportFailed]
    | response ok st b => cases ok <;> simp [generateMasks, transportFailed]
  · cases fa with
    | networkError m => simp [applyColor, makeRequest, transportFailed]
    | response ok st b => cases ok <;> simp [applyColor, makeRequest, transportFailed]
  · cases fd with
    | networkError m => simp [downloadResult, transportFailed]
    | response ok st b => cases ok <;> simp [downloadResult, transportFailed]

/-! ### C7 -/

theorem handleImageUpload_fields (f : FileRec) (p : String)
    (fetch : FetchResult UploadResponse) (s : AppState) :
    (handleImageUpload f p fetch s).selectedMasks = s.selectedMasks
    ∧ (handleImageUpload f p fetch s).masks = s.masks := by
  cases fetch with
  | networkError m => simp [handleImageUpload, uploadImage, uploadStart, progressSet]
  | response ok st b =>
      cases ok <;> cases hb : b.success <;>
        simp [handleImageUpload, uploadImage, uploadStart, progressSet, hb]

theorem handleCanvasClick_sel_masks (now : Nat) (fetch : FetchResult GenerateMasksResponse)
    (s : AppState) :
    (handleCanvasClick now fetch s).1.selectedMasks = s.selectedMasks
    ∧ ∀ x, x ∈ s.masks.map Mask.id → x ∈ (handleCanvasClick now fetch s).1.masks.map Mask.id := by
  by_cases hg : (s.uploadedImage.isNone || s.isProcessing) = true
  · simp [handleCanvasClick, hg]
  · cases fetch with
    | networkError m =>
        simp [handleCanvasClick, hg, generateMasks, canvasClickFinish, canvasClickStart, progressSet]
    | response ok st b =>
        cases ok with
        | false =>
            simp [handleCanvasClick, hg, generateMasks, canvasClickFinish,
              canvasClickStart, progressSet]
        | true =>
            cases hb : b.success with
            | false =>
                simp [handleCanvasClick, hg, generateMasks, canvasClickFinish,
                  canvasClickStart, progressSet, hb]
            | true =>
                refine ⟨?_, ?_⟩
                · simp [handleCanvasClick, hg, generateMasks, canvasClickFinish,
                    canvasClickStart, progressSet, hb]
                · intro x hx
                  simp [handleCanvasClick, hg, generateMasks, canvasClickFinish,
                    canvasClickStart, progressSet, hb]
                  simp at hx
                  obtain ⟨mk, hmk, hid⟩ := hx
                  exact Or.inl ⟨mk, hmk, hid⟩

theorem handleColorSelect_sel_masks (c : String) (s : AppState) :
    (handleColorSelect c s).selectedMasks = s.selectedMasks
    ∧ (handleColorSelect c s).masks = s.masks := by
  by_cases h : s.selectedMasks.length = 0 <;> simp [handleColorSelect, h]

theorem handleDownload_fst (s : AppState) : (handleDownload s).1 = s := by
  by_cases h : s.appliedColors.length = 0 <;> simp [handleDownload, h]

theorem toggle_preserves_selInv (s : AppState) (maskId : Nat)
    (hs : selInv s) (hm : maskId ∈ s.masks.map Mask.id) :
    selInv (handleMaskSelect maskId s) := by
  intro x hx
  simp only [handleMaskSelect] at hx ⊢
  by_cases h : maskId ∈ s.selectedMasks
  · rw [show toggleList s.selectedMasks maskId = s.selectedMasks.filter (fun i => i != maskId)
      from by simp [toggleList, h]] at hx
    exact hs x (List.mem_of_mem_filter hx)
  · rw [show toggleList s.selectedMasks maskId = s.selectedMasks ++ [maskId]
      from by simp [toggleList, h]] at hx
    rcases List.mem_append.mp hx with hx | hx
    · exact hs x hx
    · rw [List.mem_singleton.mp hx]
      exact hm

/-- C7 counterexample: toggling the identifier 999, for which no mask exists,
inserts it into `selectedMasks`, so the invariant does not survive
`handleMaskSelect` with an arbitrary identifier. -/
theorem toggle_unknown_id_breaks_invariant :
    ¬ selInv (handleMaskSelect 999 initialState) := by
  intro h
  have h999 := h 999 (by decide)
  simp [handleMaskSelect, initialState] at h999

/-- C7 amended: every state reachable from the initial state with mask
selection invoked only with identifiers of existing masks (the only
identifiers the canvas UI passes) satisfies the invariant that
`selectedMasks` contains no identifier absent from `masks`; and
`handleMaskSelect` with an existing mask identifier preserves the invariant. -/
theorem selection_invariant_amended :
    (∀ s : AppState, Reach s → selInv s)
    ∧ (∀ (s : AppState) (maskId : Nat), selInv s → maskId ∈ s.masks.map Mask.id →
        selInv (handleMaskSelect maskId s)) := by
  constructor
  · intro s hr
    induction hr with
    | init =>
        intro x hx
        simp [initialState] at hx
    | upload f p fetch hr ih =>
        intro x hx
        rw [(handleImageUpload_fields f p fetch _).1] at hx
        rw [(handleImageUpload_fields f p fetch _).2]
        exact ih x hx
    | click now fetch hr ih =>
        intro x hx
        rw [(handleCanvasClick_sel_masks now fetch _).1] at hx
        exact (handleCanvasClick_sel_masks now fetch _).2 x (ih x hx)
    | colorSel c hr ih =>
        intro x hx
        rw [(handleColorSelect_sel_masks c _).1] at hx
        rw [(handleColorSelect_sel_masks c _).2]
        exact ih x hx
    | maskSel maskId hr hmem ih =>
        exact toggle_preserves_selInv _ _ ih hmem
    | dl hr ih =>
        rw [handleDownload_fst]
        exact ih
  · exact fun s maskId => toggle_preserves_selInv s maskId

/-- Witness for C7 amended: the initial state satisfies the invariant, and
toggling the id of an existing mask preserves it at a concrete state. -/
theorem selection_invariant_amended_witness :
    selInv initialState
    ∧ selInv (handleMaskSelect 5 { initialState with masks := [⟨5, [], none⟩] }) := by
  refine ⟨selection_invariant_amended.1 initialState Reach.init,
    selection_invariant_amended.2 _ 5 ?_ (by simp)⟩
  intro x hx
  simp [initialState] at hx

/-! ### C1 -/

/-- C1 counterexample: `stateAfterColor` is reachable and sits at step
`download`; a further successful canvas click moves `currentStep` back to
`color`, and a failing upload from the initial state changes `currentStep`
(to `select`) instead of leaving it unchanged. -/
theorem currentStep_regresses :
    Reach stateAfterColor
    ∧ stateAfterColor.currentStep = Step.download
    ∧ Step.idx (handleCanvasClick 2 okMasks stateAfterColor).1.currentStep
        < Step.idx stateAfterColor.currentStep
    ∧ (handleImageUpload sampleImage "p" (FetchResult.networkError "err")
        initialState).currentStep ≠ initialState.currentStep := by
  refine ⟨?_, rfl, by decide, by decide⟩
  exact Reach.colorSel "#FF6B6B"
    (Reach.maskSel 1
      (Reach.click 1 okMasks (Reach.upload sampleImage "p" okUpload Reach.init))
      (by decide))

/-- C1 amended: `toggleMaskSelection` and `download` never change the step;
`assignColor` never moves it backward; `requestMaskAtPoint` leaves the step
unchanged except on success, where it sets it to `color` (a backward move when
the step was `download`); `submitImage` always sets the step to `select` at
initiation regardless of outcome, so it can move the step backward from
`color`/`download`, and a failing `submitImage` leaves the step at `select`
rather than at its pre-call value. -/
theorem currentStep_transitions_amended (s : AppState) (c : String) (maskId now : Nat)
    (f : FileRec) (p : String) (fu : FetchResult UploadResponse)
    (fg : FetchResult GenerateMasksResponse) :
    (handleMaskSelect maskId s).currentStep = s.currentStep
    ∧ (handleDownload s).1.currentStep = s.currentStep
    ∧ Step.idx s.currentStep ≤ Step.idx (handleColorSelect c s).currentStep
    ∧ ((handleCanvasClick now fg s).1.currentStep = s.currentStep
        ∨ (handleCanvasClick now fg s).1.currentStep = Step.color)
    ∧ (handleImageUpload f p fu s).currentStep = Step.select := by
  refine ⟨rfl, ?_, ?_, ?_, ?_⟩
  · rw [handleDownload_fst]
  · by_cases h : s.selectedMasks.length = 0
    · simp [handleColorSelect, h]
    · have hd : (handleColorSelect c s).currentStep = Step.download := by
        simp [handleColorSelect, h]
      rw [hd]
      cases s.currentStep <;> simp [Step.idx]
  · by_cases hg : (s.uploadedImage.isNone || s.isProcessing) = true
    · simp [handleCanvasClick, hg]
    · cases fg with
      | networkError m =>
          simp [handleCanvasClick, hg, generateMasks, canvasClickFinish,
            canvasClickStart, progressSet]
      | response ok st b =>
          cases ok <;> cases hb : b.success <;>
            simp [handleCanvasClick, hg, generateMasks, canvasClickFinish,
              canvasClickStart, progressSet, hb]
  · cases fu with
    | networkError m => simp [handleImageUpload, uploadImage, uploadStart, progressSet]
    | response ok st b =>
        cases ok <;> cases hb : b.success <;>
          simp [handleImageUpload, uploadImage, uploadStart, progressSet, hb]

/-! ### C2 -/

/-- C2 counterexample: after a failing `submitImage` from the initial state the
newly stored file and the driven progress remain, so the state is not rolled
back to its pre-call values. -/
theorem upload_failure_not_rolled_back :
    (handleImageUpload sampleImage "p" (FetchResult.networkError "err")
        initialState).uploadedImage = some sampleImage
    ∧ initialState.uploadedImage = none
    ∧ (handleImageUpload sampleImage "p" (FetchResult.networkError "err")
        initialState).progress = 100
    ∧ initialState.progress = 0 :=
  ⟨rfl, rfl, rfl, rfl⟩

/-- C2 amended: on a failing `requestMaskAtPoint` (transport error or
`success:false`), every field except `error` and `progress` equals its pre-call
value; on a failing `submitImage` only `masks`, `selectedMasks` and
`appliedColors` are preserved — the stored file, the step `select` set at
initiation, and a recorded error remain. -/
theorem failure_rollback_amended (s : AppState) (now : Nat)
    (fg : FetchResult GenerateMasksResponse) (f : FileRec) (p : String)
    (fu : FetchResult UploadResponse) :
    (opFailed GenerateMasksResponse.success (generateMasks fg) = true →
      (handleCanvasClick now fg s).1.masks = s.masks
      ∧ (handleCanvasClick now fg s).1.selectedMasks = s.selectedMasks
      ∧ (handleCanvasClick now fg s).1.appliedColors = s.appliedColors
      ∧ (handleCanvasClick now fg s).1.uploadedImage = s.uploadedImage
      ∧ (handleCanvasClick now fg s).1.imagePreview = s.imagePreview
      ∧ (handleCanvasClick now fg s).1.currentStep = s.currentStep
      ∧ (handleCanvasClick now fg s).1.isProcessing = s.isProcessing)
    ∧ (opFailed UploadResponse.success (uploadImage fu) = true →
        (handleImageUpload f p fu s).masks = s.masks
        ∧ (handleImageUpload f p fu s).selectedMasks = s.selectedMasks
        ∧ (handleImageUpload f p fu s).appliedColors = s.appliedColors
        ∧ (handleImageUpload f p fu s).uploadedImage = some f
        ∧ (handleImageUpload f p fu s).currentStep = Step.select
        ∧ (handleImageUpload f p fu s).error.isSome) := by
  constructor
  · intro hfail
    by_cases hg : (s.uploadedImage.isNone || s.isProcessing) = true
    · simp [handleCanvasClick, hg]
    · simp only [Bool.or_eq_true] at hg
      push_neg at hg
      have hproc : s.isProcessing = false := by simpa using hg.2
      have himg : ¬ s.uploadedImage = none := by
        simpa [Option.isNone_iff_eq_none] using hg.1
      cases fg with
      | networkError m =>
          simp [handleCanvasClick, himg, generateMasks, canvasClickFinish,
            canvasClickStart, progressSet, hproc]
      | response ok st b =>
          cases ok with
          | false =>
              simp [handleCanvasClick, himg, generateMasks, canvasClickFinish,
                canvasClickStart, progressSet, hproc]
          | true =>
              have hb : b.success = false := by
                simpa [generateMasks, opFailed] using hfail
              simp [handleCanvasClick, himg, generateMasks, canvasClickFinish,
                canvasClickStart, progressSet, hb, hproc]
  · intro hfail
    cases fu with
    | networkError m =>
        simp [handleImageUpload, uploadImage, uploadStart, progressSet]
    | response ok st b =>
        cases ok with
        | false =>
            simp [handleImageUpload, uploadImage, uploadStart, progressSet]
        | true =>
            have hb : b.success = false := by
              simpa [uploadImage, opFailed] using hfail
            simp [handleImageUpload, uploadImage, uploadStart, progressSet, hb]

/-- Witness for C2 amended at concrete failing calls. -/
theorem failure_rollback_amended_witness :
    (handleCanvasClick 7 (FetchResult.networkError "boom") uploadedState).1.currentStep
      = uploadedState.currentStep
    ∧ (handleCanvasClick 7 (FetchResult.networkError "boom") uploadedState).1.masks
      = uploadedState.masks
    ∧ (handleImageUpload sampleImage "p" (FetchResult.networkError "boom")
        uploadedState).masks = uploadedState.masks := by
  have h := failure_rollback_amended uploadedState 7 (FetchResult.networkError "boom")
      sampleImage "p" (FetchResult.networkError "boom")
  have h1 := h.1 rfl
  have h2 := h.2 rfl
  exact ⟨h1.2.2.2.2.2.1, h1.1, h2.1⟩
